import Mathlib

/-!
Verification of the bounded streaming bridge of `bevy_rustysynth`
(`src/lib.rs`, `src/assets.rs`): the background synthesis task (producer),
the bounded sample channel, and the non-blocking pull adapter (consumer),
plus the process-wide soundfont singleton.

The external synthesis engine (`rustysynth`) is out of scope of the spec and
is modelled opaquely: its `render` calls are arbitrary functions filling
buffers of a caller-chosen length (in the Rust code the buffers are `Vec`s
allocated by the caller and filled in place, so their length is fixed by the
caller regardless of what the engine does).  `f32` sample values are
modelled as Lean `Float`.  The duration arithmetic
`(sample_rate as f32 * duration.as_secs_f32()) as usize` is modelled
bit-faithfully: binary32 values are represented as significand/exponent
pairs, every conversion, division, addition and multiplication rounds to
nearest with ties to even (subnormal underflow and overflow are
unreachable from the `u64`/`u32` inputs of this pipeline), and the final
`as usize` cast truncates toward zero, saturating at `usize::MAX`.
Because of the f32 rounding this count can differ from the exact
`floor(d * 44100)` at concrete durations.
-/

/-- A Rust `std::time::Duration`: whole seconds plus sub-second nanoseconds
(`nanos < 1_000_000_000` in Rust; the bound is not needed for the claims). -/
structure Duration where
  secs : Nat
  nanos : Nat
deriving Repr, DecidableEq

/-- Total nanoseconds of a duration. -/
def Duration.toNanos (d : Duration) : Nat :=
  d.secs * 1000000000 + d.nanos

/-- `src/assets.rs` line 92: the fixed sample rate of the decoder. -/
def sampleRate : Nat := 44100

/-- Fuel-driven floor of log₂ (fuel 128 covers every argument below
`2^128`, far beyond any value arising from `u64`/`u32` inputs here);
structural, so the kernel can evaluate it. -/
def natLog2F : Nat → Nat → Nat
  | 0, _ => 0
  | f + 1, n => if 2 ≤ n then natLog2F f (n / 2) + 1 else 0

/-- Floor of log₂ on `Nat` (for positive arguments). -/
def natLog2 (n : Nat) : Nat := natLog2F 128 n

/-- Floor of log₂ of the positive rational `a / b`. -/
def qLog2 (a b : Nat) : Int :=
  let e0 : Int := (natLog2 a : Int) - (natLog2 b : Int)
  let lt : Bool :=
    if 0 ≤ e0 then Nat.blt a (b * 2 ^ e0.toNat)
    else Nat.blt (a * 2 ^ (-e0).toNat) b
  if lt then e0 - 1 else e0

/-- Round the nonnegative rational `a / b` to the nearest binary32 value
(round to nearest, ties to even), as a significand/exponent pair with
value `m * 2^e` and `2^23 ≤ m ≤ 2^24` for positive inputs.  Subnormal
underflow and overflow are not modelled; they are unreachable from the
`u64`/`u32` inputs of this pipeline. -/
def roundF32 (a b : Nat) : Nat × Int :=
  if a = 0 then (0, 0)
  else
    let s : Int := qLog2 a b - 23
    let p : Nat := if 0 ≤ s then a else a * 2 ^ (-s).toNat
    let q : Nat := if 0 ≤ s then b * 2 ^ s.toNat else b
    let fl := p / q
    let r := p % q
    let m : Nat :=
      if q < 2 * r then fl + 1
      else if 2 * r < q then fl
      else if fl % 2 = 0 then fl else fl + 1
    (m, s)

/-- The exact value of a binary32 significand/exponent pair, as an
unreduced numerator/denominator pair. -/
def f32Pair (v : Nat × Int) : Nat × Nat :=
  if 0 ≤ v.2 then (v.1 * 2 ^ v.2.toNat, 1) else (v.1, 2 ^ (-v.2).toNat)

/-- `x as f32` for an unsigned integer `x` (round to nearest even). -/
def natToF32 (x : Nat) : Nat × Int := roundF32 x 1

/-- `Duration::as_secs_f32`:
`(secs as f32) + (subsec_nanos as f32) / (1_000_000_000 as f32)`, each
operation correctly rounded (`1e9` is exactly representable in `f32`, so
the divisor is exact). -/
def Duration.asSecsF32 (d : Duration) : Nat × Int :=
  let sf := f32Pair (natToF32 d.secs)
  let nf := f32Pair (natToF32 d.nanos)
  let dv := f32Pair (roundF32 nf.1 (nf.2 * 1000000000))
  roundF32 (sf.1 * dv.2 + dv.1 * sf.2) (sf.2 * dv.2)

/-- `src/assets.rs` line 128:
`let note_length = (sample_rate as f32 * duration.as_secs_f32()) as usize;`
`44100` is exact in `f32`, the product rounds to nearest even, and the
`as usize` cast truncates toward zero, saturating at `usize::MAX`
(64-bit target). -/
def noteLength (d : Duration) : Nat :=
  let t := f32Pair d.asSecsF32
  let v := f32Pair (roundF32 (sampleRate * t.1) t.2)
  min (v.1 / v.2) (2 ^ 64 - 1)

/-- A MIDI note of an explicit sequence (`MidiNote` in `src/assets.rs`). -/
structure MidiNote where
  channel : Int
  preset : Int
  key : Int
  velocity : Int
  duration : Duration

/-- `impl Default for MidiNote` (`src/assets.rs` lines 32-42). -/
def MidiNote.default : MidiNote :=
  { channel := 0, preset := 0, key := 60, velocity := 100,
    duration := { secs := 1, nanos := 0 } }

/-- The `MidiAudio` asset (`src/assets.rs` lines 46-51): raw file bytes or
an explicit note sequence. -/
inductive MidiAudio where
  | File (data : List Nat)
  | Sequence (notes : List MidiNote)

/-!
## Bounded sample channel

Model of the `async_channel::bounded::<f32>` queue created at
`src/assets.rs` line 93: a FIFO buffer of samples with a fixed capacity and
a close flag.  Per the `async-channel` crate semantics: `try_recv` returns
a message whenever one is buffered (even after close), reports `Empty` on
an open drained channel, and reports `Closed` only once the channel is
closed **and** drained; `send` suspends while the buffer is full and fails
once the receiver is dropped; closing is one-way and final.
-/

/-- `src/assets.rs` line 93: `async_channel::bounded::<f32>(sample_rate * 2)`. -/
def streamCapacity : Nat := sampleRate * 2

/-- State of the bounded sample channel. -/
structure Channel where
  buffer : List Float
  closed : Bool
  capacity : Nat

/-- Result of `async_channel::Receiver::try_recv`. -/
inductive TryRecvResult where
  | ok (v : Float)
  | empty
  | closed

/-- `try_recv`: pop the oldest buffered sample if any; otherwise report
`empty` while the channel is open and `closed` once it is closed. -/
def tryRecv (c : Channel) : TryRecvResult × Channel :=
  match c.buffer with
  | v :: rest => (TryRecvResult.ok v, { c with buffer := rest })
  | [] => if c.closed then (TryRecvResult.closed, c) else (TryRecvResult.empty, c)

/-- `<MidiFileDecoder as Iterator>::next` (`src/assets.rs` lines 154-162):
`Ok(value) => Some(value)`, `Empty => Some(0.0)`, `Closed => None`. -/
def next (c : Channel) : Option Float × Channel :=
  match tryRecv c with
  | (TryRecvResult.ok v, c1) => (some v, c1)
  | (TryRecvResult.empty, c1) => (some 0.0, c1)
  | (TryRecvResult.closed, c1) => (none, c1)

/-- Repeatedly call `next`, collecting the returned samples, for a given
number of calls; stops early at end-of-stream (`None`). -/
def consume (c : Channel) : Nat → List Float
  | 0 => []
  | n + 1 =>
    match next c with
    | (some v, c1) => v :: consume c1 n
    | (none, _) => []

/-!
## Producer: rendering and interleaving

The `rustysynth` engine is external; its mutable `Synthesizer` and
`MidiFileSequencer` are modelled as opaque state machines.  A `render` call
fills two caller-allocated buffers of a caller-chosen length, so the buffer
contents are modelled as index functions produced together with the next
engine state.
-/

/-- `itertools`' `interleave`: alternate elements of the two lists starting
with the first, continuing with the remainder of the longer list once the
shorter is exhausted (`left.iter().interleave(right.iter())`,
`src/assets.rs` lines 110 and 132). -/
def interleave : List Float → List Float → List Float
  | [], ys => ys
  | x :: xs, [] => x :: xs
  | x :: xs, y :: ys => x :: y :: interleave xs ys

/-- Opaque model of the mutable `rustysynth::Synthesizer`: each operation
maps the engine state to a new state; `render s n` additionally yields the
contents written into the two length-`n` buffers, as index functions. -/
structure SynthesizerModel (σ : Type) where
  processMidiMessage : σ → Int → Int → Int → Int → σ
  noteOn : σ → Int → Int → Int → σ
  noteOff : σ → Int → Int → σ
  render : σ → Nat → σ × (Nat → Float) × (Nat → Float)

/-- Opaque model of the `rustysynth::MidiFileSequencer` after `play`:
`endOfSequence` queries the flag, `render` fills two `sample_rate`-sized
buffers and advances the state. -/
structure SequencerModel (τ : Type) where
  endOfSequence : τ → Bool
  render : τ → τ × (Nat → Float) × (Nat → Float)

/-- One iteration of the `MidiAudio::Sequence` loop body up to the send
loop (`src/assets.rs` lines 126-131): program change (status `0b1100_0000`),
note-on, allocate `left`/`right` of `note_length` zeros, render into them;
returns the engine state after the trailing `note_off` (line 137, which in
the code happens after the sends, but the sends do not touch the engine)
together with the filled left and right buffers. -/
def renderNoteBuffers {σ : Type} (M : SynthesizerModel σ) (s : σ)
    (note : MidiNote) : σ × List Float × List Float :=
  let s1 := M.processMidiMessage s note.channel 192 note.preset 0
  let s2 := M.noteOn s1 note.channel note.key note.velocity
  let n := noteLength note.duration
  let r := M.render s2 n
  let s3 := M.noteOff r.1 note.channel note.key
  (s3, (List.range n).map r.2.1, (List.range n).map r.2.2)

/-- The interleaved samples the producer writes to the channel for one note
(`src/assets.rs` line 132), with the engine state threaded past the note. -/
def renderNote {σ : Type} (M : SynthesizerModel σ) (s : σ)
    (note : MidiNote) : σ × List Float :=
  let r := renderNoteBuffers M s note
  (r.1, interleave r.2.1 r.2.2)

/-- The per-note interleaved sample chunks of the whole
`MidiAudio::Sequence` loop (`src/assets.rs` lines 117-139), in note order. -/
def noteChunks {σ : Type} (M : SynthesizerModel σ) :
    σ → List MidiNote → List (List Float)
  | _, [] => []
  | s, note :: rest =>
    let r := renderNote M s note
    r.2 :: noteChunks M r.1 rest

/-- The per-block interleaved sample chunks of the `MidiAudio::File` loop
(`src/assets.rs` lines 106-115): while the sequencer has not reached
end-of-sequence, render one `sample_rate`-frame block into `left`/`right`
and interleave it.  `fuel` bounds the number of loop iterations modelled;
`none` means the sequence did not end within `fuel` blocks. -/
def fileChunks {τ : Type} (S : SequencerModel τ) :
    τ → Nat → Option (List (List Float))
  | t, 0 => if S.endOfSequence t then some [] else none
  | t, fuel + 1 =>
    if S.endOfSequence t then some []
    else
      let r := S.render t
      let c := interleave ((List.range sampleRate).map r.2.1)
        ((List.range sampleRate).map r.2.2)
      (fileChunks S r.1 fuel).map (fun cs => c :: cs)

/-!
## Producer: the send loops and cancellation

Both loop bodies write their chunk sample-by-sample with
`if let Err(_) = tx.send(*value).await { return; }`.  A send succeeds while
the receiver is alive and fails once it has been dropped; `alive` below is
the number of sends the receiver will still accept (its drop point).  On
the first failed send the task returns at once: the remainder of the chunk,
all later chunks, and the final `tx.close()` are all skipped.
-/

/-- What the producer task did by the time it ended. -/
structure TaskOutcome where
  delivered : List Float
  sendAttempts : Nat
  closeCalled : Bool
deriving Repr

/-- The inner `for value in ... { if let Err(_) = tx.send(...) { return } }`
loop over one chunk: returns the delivered values, the number of send
attempts, and `some` remaining allowance on success or `none` if a send
failed (receiver dropped). -/
def sendLoop : List Float → Nat → List Float × Nat × Option Nat
  | [], k => ([], 0, some k)
  | _ :: _, 0 => ([], 1, none)
  | v :: vs, k + 1 =>
    let r := sendLoop vs k
    (v :: r.1, r.2.1 + 1, r.2.2)

/-- The outer loop over chunks followed by `tx.close()`
(`src/assets.rs` lines 108-115, 117-139, 142): send each chunk in order;
on a failed send return immediately without calling `close`; after the last
chunk call `close`. -/
def sendChunks : List (List Float) → Nat → TaskOutcome
  | [], _ => { delivered := [], sendAttempts := 0, closeCalled := true }
  | c :: cs, k =>
    let r := sendLoop c k
    match r.2.2 with
    | none => { delivered := r.1, sendAttempts := r.2.1, closeCalled := false }
    | some k1 =>
      let o := sendChunks cs k1
      { delivered := r.1 ++ o.delivered, sendAttempts := r.2.1 + o.sendAttempts,
        closeCalled := o.closeCalled }

/-!
## The whole background task and the decoder constructor
-/

/-- Opaque model of the external engine constructors used by the task body:
`Synthesizer::new` (fallible: `none` models the `expect` panic at
`src/assets.rs` line 97), `MidiFile::new` (fallible: `none` models the
`expect` panic at line 104), and `MidiFileSequencer::new` + `play`
(line 101 and 105) producing a sequencer state from the synthesizer and the
parsed file. -/
structure EngineModel (σ τ SF MF : Type) where
  synthNew : SF → Option σ
  midiFileNew : List Nat → Option MF
  seqPlay : σ → MF → τ
  sequencer : SequencerModel τ
  synth : SynthesizerModel σ

/-- Outcome of one run of the spawned task (`src/assets.rs` lines 94-143).
`panicked = true` models an `expect` failure aborting the task.  In every
case the task's end drops the sender (or has called `close`), which closes
the channel for the consumer. -/
structure TaskResult where
  outcome : TaskOutcome
  panicked : Bool
deriving Repr

/-- The body of the spawned task (`src/assets.rs` lines 94-143): build the
synthesizer; for a `File` source parse the bytes, start the sequencer and
stream block chunks; for a `Sequence` source stream the per-note chunks;
close the channel on natural completion.  `fuel` bounds the modelled file
loop; `alive` is the number of sends the receiver will accept. -/
def midiTask {σ τ SF MF : Type} (E : EngineModel σ τ SF MF) (sf : SF)
    (midi : MidiAudio) (fuel alive : Nat) : Option TaskResult :=
  match E.synthNew sf with
  | none =>
    some { outcome := { delivered := [], sendAttempts := 0, closeCalled := false },
           panicked := true }
  | some s =>
    match midi with
    | MidiAudio.File data =>
      match E.midiFileNew data with
      | none =>
        some { outcome := { delivered := [], sendAttempts := 0, closeCalled := false },
               panicked := true }
      | some mf =>
        (fileChunks E.sequencer (E.seqPlay s mf) fuel).map
          (fun cs => { outcome := sendChunks cs alive, panicked := false })
    | MidiAudio.Sequence notes =>
      some { outcome := sendChunks (noteChunks E.synth s notes) alive,
             panicked := false }

/-- The channel as the consumer sees it once the task has ended: whatever
was delivered and not yet read is still buffered, and the channel is closed
— by the explicit `tx.close()` on completion, or by the drop of `tx` when
the task returns early or panics (`async-channel` closes when the last
sender drops). -/
def finalChannel (r : TaskResult) : Channel :=
  { buffer := r.outcome.delivered, closed := true, capacity := streamCapacity }

/-- The `MidiFileDecoder` struct (`src/assets.rs` lines 81-84): it retains
only the sample rate and the receiving end of the channel. -/
structure MidiFileDecoder where
  sample_rate : Nat
  stream : Channel

/-- Everything `MidiFileDecoder::new` (`src/assets.rs` lines 91-148) does:
create the bounded channel, spawn the task (capturing the source and the
soundfont handle) on the compute pool, **detach** it (line 143), and return
the decoder holding the receiver.  `taskDetached` records the `.detach()`
call; no task handle is stored anywhere. -/
structure NewResult (SF : Type) where
  decoder : MidiFileDecoder
  taskSource : MidiAudio
  taskSoundfont : SF
  taskDetached : Bool

/-- `MidiFileDecoder::new` (`src/assets.rs` lines 91-148). -/
def MidiFileDecoder.new {SF : Type} (midi : MidiAudio) (soundfont : SF) :
    NewResult SF :=
  { decoder := { sample_rate := sampleRate,
                 stream := { buffer := [], closed := false, capacity := streamCapacity } },
    taskSource := midi,
    taskSoundfont := soundfont,
    taskDetached := true }

/-- `<MidiAudio as Decodable>::decoder` (`src/assets.rs` lines 188-190):
`MidiFileDecoder::new(self.clone(), crate::SOUNDFONT.get().unwrap().clone())`.
The global `SOUNDFONT` state is passed explicitly; `none` as the result
models the `unwrap` panic when the soundfont was never initialized. -/
def decodableDecoder {SF : Type} (soundfontState : Option SF)
    (asset : MidiAudio) : Option (NewResult SF) :=
  match soundfontState with
  | none => none
  | some sf => some (MidiFileDecoder.new asset sf)

/-!
## The process-wide soundfont singleton (`src/lib.rs`)
-/

/-- `std::sync::OnceLock::set` (used at `src/lib.rs` line 38): stores the
value only if the cell is empty; an occupied cell is left unchanged and the
attempt is reported as rejected (`Err`, here `false`). -/
def onceLockSet {α : Type} (st : Option α) (v : α) : Option α × Bool :=
  match st with
  | none => (some v, true)
  | some w => (some w, false)

/-- `RustySynthPlugin::build` (`src/lib.rs` lines 37-44) as it affects the
`SOUNDFONT` cell: parse the soundfont reader (`SoundFont::new(...).unwrap()`;
`parsed = none` models the `unwrap` panic) and `let _ = SOUNDFONT.set(...)`,
discarding the rejection result.  Returns the new cell state, or `none` if
the build panicked. -/
def pluginBuild {SF : Type} (st : Option SF) (parsed : Option SF) :
    Option (Option SF) :=
  match parsed with
  | none => none
  | some sf => some (onceLockSet st sf).1

/-!
## Channel dynamics (backpressure)
-/

/-- One event on the bounded channel: a successful producer `send` (only
possible while the buffer is below capacity — a full channel suspends the
sender instead), a consumer `try_recv`, or the producer's `close`. -/
inductive ChanStep : Channel → Channel → Prop where
  | send (c : Channel) (v : Float) (hfull : c.buffer.length < c.capacity) :
      ChanStep c { c with buffer := c.buffer ++ [v] }
  | recv (c : Channel) : ChanStep c (tryRecv c).2
  | close (c : Channel) : ChanStep c { c with closed := true }

/-- Channel states reachable from the freshly created channel of
`src/assets.rs` line 93 (empty, open, capacity `sample_rate * 2`). -/
inductive ChanReachable : Channel → Prop where
  | init : ChanReachable { buffer := [], closed := false, capacity := streamCapacity }
  | step {c c2 : Channel} : ChanReachable c → ChanStep c c2 → ChanReachable c2

/-!
## Concrete instances used to evaluate the theorems on closed inputs
-/

/-- A concrete synthesizer instance: stateless, renders silence. -/
def constSynth : SynthesizerModel Unit :=
  { processMidiMessage := fun _ _ _ _ _ => (),
    noteOn := fun _ _ _ _ => (),
    noteOff := fun _ _ _ => (),
    render := fun _ _ => ((), fun _ => 0.0, fun _ => 0.0) }

/-- A concrete synthesizer instance rendering a nonzero constant,
distinguishable from `constSynth` output. -/
def onesSynth : SynthesizerModel Unit :=
  { processMidiMessage := fun _ _ _ _ _ => (),
    noteOn := fun _ _ _ _ => (),
    noteOff := fun _ _ _ => (),
    render := fun _ _ => ((), fun _ => 1.0, fun _ => 1.0) }

/-- A concrete sequencer instance that renders exactly one block and then
reports end-of-sequence (state = the end-of-sequence flag). -/
def oneBlockSeq : SequencerModel Bool :=
  { endOfSequence := fun b => b,
    render := fun _ => (true, fun _ => 0.0, fun _ => 0.0) }

/-- A concrete engine whose constructors all succeed. -/
def okEngine : EngineModel Unit Bool Nat Nat :=
  { synthNew := fun _ => some (),
    midiFileNew := fun _ => some 0,
    seqPlay := fun _ _ => false,
    sequencer := oneBlockSeq,
    synth := constSynth }

/-- A concrete engine whose synthesizer constructor fails
(models `Synthesizer::new` returning `Err`). -/
def failEngine : EngineModel Unit Bool Nat Nat :=
  { synthNew := fun _ => none,
    midiFileNew := fun _ => some 0,
    seqPlay := fun _ _ => false,
    sequencer := oneBlockSeq,
    synth := constSynth }

/-- A concrete note whose duration of 22676 ns yields a one-frame render
(`floor(44100 * 0.000022676) = 1`). -/
def tinyNote : MidiNote :=
  { channel := 0, preset := 1, key := 2, velocity := 3,
    duration := { secs := 0, nanos := 22676 } }

/-- `tinyNote` with different preset, key and velocity but equal duration. -/
def tinyNote2 : MidiNote :=
  { channel := 0, preset := 9, key := 72, velocity := 127,
    duration := { secs := 0, nanos := 22676 } }

/-!
## Claims C2 and C3: consumer end-of-stream and underrun behaviour
-/

/-- C2: `next` returns end-of-stream (`none`) if and only if the channel is
closed and its buffer is drained; on a closed channel that still holds
buffered samples, `next` returns the oldest buffered sample and leaves the
rest, so buffered samples are yielded in order before end-of-stream. -/
theorem next_none_iff_closed_and_drained (c : Channel) :
    ((next c).1 = none ↔ (c.closed = true ∧ c.buffer = [])) ∧
    (∀ v rest, c.buffer = v :: rest →
      next c = (some v, { c with buffer := rest })) := by
  constructor
  · constructor
    · intro h
      rcases hb : c.buffer with _ | ⟨v, rest⟩
      · rcases hc : c.closed with _ | _
        · simp [next, tryRecv, hb, hc] at h
        · exact ⟨by simp [hc], by simp [hb]⟩
      · simp [next, tryRecv, hb] at h
    · rintro ⟨hc, hb⟩
      simp [next, tryRecv, hb, hc]
  · intro v rest hb
    simp [next, tryRecv, hb]

/-- Witness for C2 on a concrete closed, non-empty channel. -/
theorem next_none_iff_closed_and_drained_witness :
    let c : Channel := { buffer := [1.5, 2.5], closed := true, capacity := streamCapacity }
    ((next c).1 = none ↔ (c.closed = true ∧ c.buffer = [])) ∧
    (∀ v rest, c.buffer = v :: rest →
      next c = (some v, { c with buffer := rest })) :=
  next_none_iff_closed_and_drained
    { buffer := [1.5, 2.5], closed := true, capacity := streamCapacity }

/-- C3: whenever `try_recv` reports `empty` (channel open but drained),
`next` returns exactly the sample `0.0` — not a previous value, not
end-of-stream — and leaves the channel unchanged. -/
theorem next_empty_returns_silence (c : Channel)
    (h : (tryRecv c).1 = TryRecvResult.empty) :
    next c = (some 0.0, c) := by
  rcases hb : c.buffer with _ | ⟨v, rest⟩
  · rcases hc : c.closed with _ | _
    · have h2 : tryRecv c = (TryRecvResult.empty, c) := by
        simp [tryRecv, hb, hc]
      simp [next, h2]
    · simp [tryRecv, hb, hc] at h
  · simp [tryRecv, hb] at h

/-- Witness for C3 on the concrete open empty channel. -/
theorem next_empty_returns_silence_witness :
    next { buffer := [], closed := false, capacity := streamCapacity } =
      (some 0.0, { buffer := [], closed := false, capacity := streamCapacity }) :=
  next_empty_returns_silence
    { buffer := [], closed := false, capacity := streamCapacity } rfl

/-!
## Interleaving and rendering lemmas
-/

theorem interleave_nil_right (xs : List Float) : interleave xs [] = xs := by
  cases xs <;> simp [interleave]

theorem interleave_cons_cons (x y : Float) (xs ys : List Float) :
    interleave (x :: xs) (y :: ys) = x :: y :: interleave xs ys := by
  simp [interleave]

theorem interleave_length : ∀ (xs ys : List Float),
    (interleave xs ys).length = xs.length + ys.length
  | [], ys => by simp [interleave]
  | x :: xs, [] => by simp [interleave]
  | x :: xs, y :: ys => by
    rw [interleave_cons_cons]
    simp [interleave_length xs ys]
    omega

theorem interleave_getElem (L R : List Float) (h : L.length = R.length)
    (i : Nat) (hi : i < L.length) :
    (interleave L R)[2 * i]? = L[i]? ∧ (interleave L R)[2 * i + 1]? = R[i]? := by
  induction L generalizing R i with
  | nil => simp at hi
  | cons x xs ih =>
    cases R with
    | nil => simp at h
    | cons y ys =>
      rw [interleave_cons_cons]
      cases i with
      | zero => simp
      | succ j =>
        have h2 : xs.length = ys.length := by simpa using h
        have hj : j < xs.length := by simpa using hi
        have e1 : 2 * (j + 1) = (2 * j + 1) + 1 := by ring
        rw [e1]
        simpa [List.getElem?_cons_succ] using ih ys h2 j hj

theorem renderNoteBuffers_length {σ : Type} (M : SynthesizerModel σ) (s : σ)
    (note : MidiNote) :
    (renderNoteBuffers M s note).2.1.length = noteLength note.duration ∧
    (renderNoteBuffers M s note).2.2.length = noteLength note.duration := by
  simp [renderNoteBuffers]

theorem renderNote_length {σ : Type} (M : SynthesizerModel σ) (s : σ)
    (note : MidiNote) :
    (renderNote M s note).2.length = 2 * noteLength note.duration := by
  have h := renderNoteBuffers_length M s note
  simp [renderNote, interleave_length, h.1, h.2]
  omega

theorem noteChunks_getElem {σ : Type} (M : SynthesizerModel σ) :
    ∀ (notes : List MidiNote) (s : σ) (i : Nat), i < notes.length →
      ∃ note chunk, notes[i]? = some note ∧
        (noteChunks M s notes)[i]? = some chunk ∧
        chunk.length = 2 * noteLength note.duration
  | [], _, i, hi => absurd hi (by simp)
  | note :: _, s, 0, _ =>
    ⟨note, (renderNote M s note).2, by simp, by simp [noteChunks],
      renderNote_length M s note⟩
  | note :: rest, s, i + 1, hi => by
    obtain ⟨n2, c2, h1, h2, h3⟩ :=
      noteChunks_getElem M rest (renderNote M s note).1 i (by simpa using hi)
    refine ⟨n2, c2, by simpa using h1, ?_, h3⟩
    simpa [noteChunks] using h2

/-!
## Claim C1: per-note sample count
-/

/-- C1 (amended): for every explicit note sequence, the chunk the producer
writes to the channel for the `i`-th note has exactly `2 * note_length`
interleaved samples, where `note_length` is the f32 computation
`(44100_f32 * d.as_secs_f32()) as usize` of that note's duration `d`
(the left and right buffers hold `note_length` frames each), and this
count is independent of the note's velocity, key and preset (and even of
the engine and its state): any note of equal duration yields a chunk of
equal length.  Because of the f32 rounding, `note_length` can differ from
the exact `floor(d * 44100)` — see the counterexample at `d = 100000 s`. -/
theorem note_sample_count {σ σ2 : Type} (M : SynthesizerModel σ) (s : σ)
    (notes : List MidiNote) (i : Nat) (hi : i < notes.length)
    (M2 : SynthesizerModel σ2) (s2 : σ2) (note2 : MidiNote) :
    ∃ note chunk, notes[i]? = some note ∧
      (noteChunks M s notes)[i]? = some chunk ∧
      chunk.length = 2 * noteLength note.duration ∧
      (renderNoteBuffers M2 s2 note2).2.1.length = noteLength note2.duration ∧
      (renderNoteBuffers M2 s2 note2).2.2.length = noteLength note2.duration ∧
      (note2.duration = note.duration →
        (renderNote M2 s2 note2).2.length = chunk.length) := by
  obtain ⟨note, chunk, h1, h2, h3⟩ := noteChunks_getElem M notes s i hi
  refine ⟨note, chunk, h1, h2, h3,
    (renderNoteBuffers_length M2 s2 note2).1,
    (renderNoteBuffers_length M2 s2 note2).2, ?_⟩
  intro hd
  rw [renderNote_length, hd, h3]

/-- C1 counterexample to the claim as stated: at the concrete duration of
100000 seconds the f32 product `44100.0 * 100000.0` rounds to
`4409999872.0` (the exact value `4410000000` falls between binary32
values, whose spacing is 512 at that magnitude), so the producer's chunk
has `2 * 4409999872` samples while `2 * floor(d * 44100)` is
`2 * 4410000000`. -/
theorem note_sample_count_counterexample :
    (renderNote constSynth ()
        { channel := 0, preset := 0, key := 60, velocity := 100,
          duration := { secs := 100000, nanos := 0 } }).2.length =
      2 * 4409999872 ∧
    sampleRate * ({ secs := 100000, nanos := 0 } : Duration).toNanos / 1000000000 =
      4410000000 ∧
    (renderNote constSynth ()
        { channel := 0, preset := 0, key := 60, velocity := 100,
          duration := { secs := 100000, nanos := 0 } }).2.length ≠
      2 * (sampleRate * ({ secs := 100000, nanos := 0 } : Duration).toNanos / 1000000000) := by
  refine ⟨?_, by decide, ?_⟩
  · rw [renderNote_length]
    decide
  · rw [renderNote_length]
    decide

/-- Witness for C1: the first note of a concrete two-note sequence, checked
against a different engine (`onesSynth`) playing a note with different
preset, key and velocity but the same duration. -/
theorem note_sample_count_witness :
    (0 < ([tinyNote, MidiNote.default] : List MidiNote).length) ∧
    (∃ note chunk,
      ([tinyNote, MidiNote.default] : List MidiNote)[0]? = some note ∧
      (noteChunks constSynth () [tinyNote, MidiNote.default])[0]? = some chunk ∧
      chunk.length = 2 * noteLength note.duration ∧
      (renderNoteBuffers onesSynth () tinyNote2).2.1.length = noteLength tinyNote2.duration ∧
      (renderNoteBuffers onesSynth () tinyNote2).2.2.length = noteLength tinyNote2.duration ∧
      (tinyNote2.duration = note.duration →
        (renderNote onesSynth () tinyNote2).2.length = chunk.length)) :=
  ⟨by decide,
   note_sample_count constSynth () [tinyNote, MidiNote.default] 0 (by decide)
     onesSynth () tinyNote2⟩

/-!
## Claim C4: interleaving order and FIFO delivery
-/

theorem consume_closed (cap : Nat) :
    ∀ l : List Float, consume { buffer := l, closed := true, capacity := cap } l.length = l
  | [] => rfl
  | v :: rest => by
    simp [consume, next, tryRecv]
    exact consume_closed cap rest

/-- C4: each render step's chunk is exactly the interleaving of its left
and right buffers; for equal-length buffers the interleaving puts the left
sample at every even position `2i` and the matching right sample at `2i+1`;
and the consumer drains a closed channel to exactly the buffered list, in
FIFO order, value for value. -/
theorem interleave_order_fifo :
    (∀ {σ : Type} (M : SynthesizerModel σ) (s : σ) (note : MidiNote),
      (renderNote M s note).2 =
        interleave (renderNoteBuffers M s note).2.1 (renderNoteBuffers M s note).2.2) ∧
    (∀ (L R : List Float), L.length = R.length → ∀ i, i < L.length →
      (interleave L R)[2 * i]? = L[i]? ∧ (interleave L R)[2 * i + 1]? = R[i]?) ∧
    (∀ (l : List Float) (cap : Nat),
      consume { buffer := l, closed := true, capacity := cap } l.length = l) := by
  refine ⟨fun M s note => rfl, fun L R h i hi => interleave_getElem L R h i hi,
    fun l cap => consume_closed cap l⟩

/-- Witness for C4 on concrete buffers `[1.5, 2.5]` / `[3.5, 4.5]` at
index 1, and a concrete closed channel. -/
theorem interleave_order_fifo_witness :
    (([1.5, 2.5] : List Float).length = ([3.5, 4.5] : List Float).length) ∧
    (1 < ([1.5, 2.5] : List Float).length) ∧
    ((interleave [1.5, 2.5] [3.5, 4.5])[2 * 1]? = ([1.5, 2.5] : List Float)[1]? ∧
     (interleave [1.5, 2.5] [3.5, 4.5])[2 * 1 + 1]? = ([3.5, 4.5] : List Float)[1]?) ∧
    consume { buffer := [1.5, 2.5], closed := true, capacity := streamCapacity } 2 = [1.5, 2.5] :=
  ⟨rfl, by decide,
   interleave_order_fifo.2.1 [1.5, 2.5] [3.5, 4.5] rfl 1 (by decide),
   interleave_order_fifo.2.2 [1.5, 2.5] streamCapacity⟩

/-!
## Send-loop lemmas
-/

theorem sendLoop_all : ∀ (vs : List Float) (k : Nat), vs.length ≤ k →
    sendLoop vs k = (vs, vs.length, some (k - vs.length))
  | [], k, _ => by simp [sendLoop]
  | v :: vs, 0, h => by simp at h
  | v :: vs, k + 1, h => by
    have ih := sendLoop_all vs k (by simpa using h)
    simp [sendLoop, ih]

theorem sendLoop_fail : ∀ (vs : List Float) (k : Nat), k < vs.length →
    sendLoop vs k = (vs.take k, k + 1, none)
  | [], k, h => by simp at h
  | v :: vs, 0, _ => by simp [sendLoop]
  | v :: vs, k + 1, h => by
    have ih := sendLoop_fail vs k (by simpa using h)
    simp [sendLoop, ih, List.take_succ_cons]

theorem sendChunks_complete : ∀ (cs : List (List Float)) (k : Nat),
    cs.flatten.length ≤ k →
    sendChunks cs k =
      { delivered := cs.flatten, sendAttempts := cs.flatten.length,
        closeCalled := true }
  | [], k, _ => by simp [sendChunks]
  | c :: cs, k, h => by
    rw [List.flatten_cons, List.length_append] at h
    have hc : c.length ≤ k := by omega
    have ih := sendChunks_complete cs (k - c.length) (by omega)
    simp [sendChunks, sendLoop_all c k hc, ih, List.flatten_cons]

theorem sendChunks_cancel : ∀ (cs : List (List Float)) (k : Nat),
    k < cs.flatten.length →
    sendChunks cs k =
      { delivered := cs.flatten.take k, sendAttempts := k + 1,
        closeCalled := false }
  | [], k, h => by simp at h
  | c :: cs, k, h => by
    rw [List.flatten_cons, List.length_append] at h
    by_cases hk : k < c.length
    · simp [sendChunks, sendLoop_fail c k hk, List.flatten_cons,
        List.take_append_of_le_length (le_of_lt hk)]
    · push_neg at hk
      have hlt : k - c.length < cs.flatten.length := by omega
      have ih := sendChunks_cancel cs (k - c.length) hlt
      have e : (c ++ cs.flatten).take k = c ++ cs.flatten.take (k - c.length) := by
        have e2 : k = c.length + (k - c.length) := by omega
        rw [e2, List.take_append, Nat.add_sub_cancel_left]
      simp [sendChunks, sendLoop_all c k hk, ih, List.flatten_cons, e]
      omega

/-!
## Claim C5: dropping the consumer stops the producer
-/

/-- C5: when the receiver is dropped after accepting `alive` samples and
the producer still has samples left to write, the task ends at its first
failed send: it delivers exactly the first `alive` rendered samples (no
further writes, no rendering of later chunks), makes exactly `alive + 1`
send attempts (bounded: one past the accepted ones), and never calls
`close` — in both the `Sequence` branch and the `File` branch. -/
theorem consumer_drop_cancels_producer {σ τ SF MF : Type}
    (E : EngineModel σ τ SF MF) (sf : SF) (s : σ) (notes : List MidiNote)
    (data : List Nat) (mf : MF) (cs : List (List Float)) (fuel alive : Nat)
    (hs : E.synthNew sf = some s)
    (hseq : alive < (noteChunks E.synth s notes).flatten.length)
    (hmf : E.midiFileNew data = some mf)
    (hcs : fileChunks E.sequencer (E.seqPlay s mf) fuel = some cs)
    (hfile : alive < cs.flatten.length) :
    midiTask E sf (MidiAudio.Sequence notes) fuel alive = some
      { outcome := { delivered := (noteChunks E.synth s notes).flatten.take alive,
                     sendAttempts := alive + 1, closeCalled := false },
        panicked := false } ∧
    midiTask E sf (MidiAudio.File data) fuel alive = some
      { outcome := { delivered := cs.flatten.take alive,
                     sendAttempts := alive + 1, closeCalled := false },
        panicked := false } := by
  constructor
  · simp [midiTask, hs, sendChunks_cancel _ _ hseq]
  · simp [midiTask, hs, hmf, hcs, sendChunks_cancel _ _ hfile]

/-- The single block the concrete `oneBlockSeq` sequencer renders. -/
theorem oneBlockSeq_chunks :
    fileChunks oneBlockSeq false 1 = some
      [interleave ((List.range sampleRate).map (fun _ => 0.0))
        ((List.range sampleRate).map (fun _ => 0.0))] := rfl

/-- Witness for C5: the concrete engine with a one-note sequence and a
one-block file, receiver dropped before accepting anything. -/
theorem consumer_drop_cancels_producer_witness :
    (okEngine.synthNew 0 = some ()) ∧
    (0 < (noteChunks okEngine.synth () [tinyNote]).flatten.length) ∧
    (okEngine.midiFileNew [] = some 0) ∧
    (fileChunks okEngine.sequencer (okEngine.seqPlay () 0) 1 = some
      [interleave ((List.range sampleRate).map (fun _ => 0.0))
        ((List.range sampleRate).map (fun _ => 0.0))]) ∧
    (0 < ([interleave ((List.range sampleRate).map (fun _ => (0.0 : Float)))
        ((List.range sampleRate).map (fun _ => 0.0))] : List (List Float)).flatten.length) ∧
    (midiTask okEngine 0 (MidiAudio.Sequence [tinyNote]) 1 0 = some
      { outcome := { delivered := (noteChunks okEngine.synth () [tinyNote]).flatten.take 0,
                     sendAttempts := 1, closeCalled := false },
        panicked := false } ∧
     midiTask okEngine 0 (MidiAudio.File []) 1 0 = some
      { outcome := { delivered := ([interleave ((List.range sampleRate).map (fun _ => (0.0 : Float)))
                       ((List.range sampleRate).map (fun _ => 0.0))] : List (List Float)).flatten.take 0,
                     sendAttempts := 1, closeCalled := false },
        panicked := false }) :=
  ⟨rfl, by decide, rfl, rfl,
   by simp [interleave_length]; decide,
   consumer_drop_cancels_producer okEngine 0 () [tinyNote] [] 0 _ 1 0
     rfl (by decide) rfl rfl (by simp [interleave_length]; decide)⟩

/-!
## Claim C7: fatal construction failure yields silence then end-of-stream
-/

/-- C7: when construction fails fatally — the synthesizer constructor
fails, or the source is a file whose bytes do not parse — the task ends
(its `expect` aborts it) having delivered nothing and attempted no send.
The consumer, which only ever runs the total `next` function, observes
silence (`some 0.0`) while the task is still pending (open, empty channel)
and end-of-stream (`none`) as soon as the task's end closes the channel
(the dropped sender closes it); the host pipeline itself never panics. -/
theorem construction_failure_silence_then_eos {σ τ SF MF : Type}
    (E : EngineModel σ τ SF MF) (sf : SF) (midi : MidiAudio) (fuel alive : Nat)
    (h : E.synthNew sf = none ∨
      ∃ data, midi = MidiAudio.File data ∧ E.midiFileNew data = none) :
    ∃ r, midiTask E sf midi fuel alive = some r ∧
      r.outcome.delivered = [] ∧ r.outcome.sendAttempts = 0 ∧
      r.panicked = true ∧
      (next (finalChannel r)).1 = none ∧
      (next { buffer := [], closed := false, capacity := streamCapacity }).1 = some 0.0 := by
  rcases h with h | ⟨data, hm, hp⟩
  · exact ⟨{ outcome := { delivered := [], sendAttempts := 0, closeCalled := false },
             panicked := true },
      by simp [midiTask, h], rfl, rfl, rfl, rfl, rfl⟩
  · subst hm
    cases hs : E.synthNew sf with
    | none =>
      exact ⟨{ outcome := { delivered := [], sendAttempts := 0, closeCalled := false },
               panicked := true },
        by simp [midiTask, hs], rfl, rfl, rfl, rfl, rfl⟩
    | some s =>
      exact ⟨{ outcome := { delivered := [], sendAttempts := 0, closeCalled := false },
               panicked := true },
        by simp [midiTask, hs, hp], rfl, rfl, rfl, rfl, rfl⟩

/-- Witness for C7: the concrete engine whose synthesizer constructor
fails, on an empty note sequence. -/
theorem construction_failure_silence_then_eos_witness :
    (failEngine.synthNew 0 = none ∨
      ∃ data, MidiAudio.Sequence [] = MidiAudio.File data ∧
        failEngine.midiFileNew data = none) ∧
    (∃ r, midiTask failEngine 0 (MidiAudio.Sequence []) 0 0 = some r ∧
      r.outcome.delivered = [] ∧ r.outcome.sendAttempts = 0 ∧
      r.panicked = true ∧
      (next (finalChannel r)).1 = none ∧
      (next { buffer := [], closed := false, capacity := streamCapacity }).1 = some 0.0) :=
  ⟨Or.inl rfl,
   construction_failure_silence_then_eos failEngine 0 (MidiAudio.Sequence []) 0 0 (Or.inl rfl)⟩

/-!
## Claim C8: bounded channel backpressure invariant
-/

theorem chanStep_bound {c c2 : Channel} (st : ChanStep c c2) :
    c2.capacity = c.capacity ∧
    (c.buffer.length ≤ c.capacity → c2.buffer.length ≤ c2.capacity) := by
  cases st with
  | send v hfull =>
    refine ⟨rfl, fun _ => ?_⟩
    simp
    omega
  | recv =>
    rcases hb : c.buffer with _ | ⟨v, rest⟩
    · cases hc : c.closed <;> simp [tryRecv, hb, hc]
    · refine ⟨by simp [tryRecv, hb], fun h => ?_⟩
      simp [tryRecv, hb] at h ⊢
      omega
  | close => exact ⟨rfl, fun h => h⟩

theorem chanReachable_inv {c : Channel} (h : ChanReachable c) :
    c.capacity = streamCapacity ∧ c.buffer.length ≤ streamCapacity := by
  induction h with
  | init => exact ⟨rfl, by simp⟩
  | step hr st ih =>
    obtain ⟨hcap, hlen⟩ := ih
    obtain ⟨hcap2, himp⟩ := chanStep_bound st
    have h2 := himp (by rw [hcap]; exact hlen)
    rw [hcap2, hcap] at h2 ⊢
    exact ⟨rfl, h2⟩

/-- C8: in every channel state reachable from the freshly created stream
channel, the number of buffered-but-unread samples never exceeds the fixed
capacity `C = 2 * 44100`; moreover no step from a full channel grows the
buffer (a send from a full channel is impossible — the producer suspends
instead), and the consumer's `try_recv` never blocks: it is a total
function on every state. -/
theorem channel_backpressure (c : Channel) (h : ChanReachable c) :
    c.buffer.length ≤ streamCapacity ∧
    c.capacity = streamCapacity ∧
    streamCapacity = 2 * 44100 ∧
    (∀ c2, c.buffer.length = c.capacity → ChanStep c c2 →
      c2.buffer.length ≤ c.buffer.length) := by
  refine ⟨(chanReachable_inv h).2, (chanReachable_inv h).1, by decide, ?_⟩
  intro c2 hfull st
  cases st with
  | send v hlt => exact absurd hfull (Nat.ne_of_lt hlt)
  | recv =>
    rcases hb : c.buffer with _ | ⟨v, rest⟩
    · cases hc : c.closed <;> simp [tryRecv, hb, hc]
    · simp [tryRecv, hb]
  | close => simp

/-- Witness for C8 at the initial channel state. -/
theorem channel_backpressure_witness :
    ({ buffer := [], closed := false, capacity := streamCapacity } : Channel).buffer.length ≤ streamCapacity ∧
    ({ buffer := [], closed := false, capacity := streamCapacity } : Channel).capacity = streamCapacity ∧
    streamCapacity = 2 * 44100 ∧
    (∀ c2, ({ buffer := [], closed := false, capacity := streamCapacity } : Channel).buffer.length =
        ({ buffer := [], closed := false, capacity := streamCapacity } : Channel).capacity →
      ChanStep { buffer := [], closed := false, capacity := streamCapacity } c2 →
      c2.buffer.length ≤ ({ buffer := [], closed := false, capacity := streamCapacity } : Channel).buffer.length) :=
  channel_backpressure _ ChanReachable.init

/-!
## Claim C6: the task handle is not retained
-/

/-- C6 (observed code behaviour, contradicting the claim): `MidiFileDecoder::new`
does not retain the background task's handle.  The spawned task is detached
(`.detach()`, `src/assets.rs` line 143) and the returned decoder stores only
the sample rate and the stream receiver, so dropping the decoder does not
drop a task handle; the task is only stopped later, through its first
failed channel send. -/
theorem decoder_detaches_task :
    (MidiFileDecoder.new (MidiAudio.Sequence []) (0 : Nat)).taskDetached = true :=
  rfl

/-!
## Claim C9: the soundfont is set at most once
-/

/-- C9: once a first plugin build has stored a soundfont in the `SOUNDFONT`
cell, every later build leaves the stored value unchanged — the second
`OnceLock::set` is rejected (returns `false`/`Err`, silently discarded by
`let _ =`) and never replaces the handle — while the first build on an
empty cell stores its parsed soundfont. -/
theorem soundfont_set_once {SF : Type} (st : Option SF) (w v : SF)
    (h : st = some w) :
    pluginBuild st (some v) = some (some w) ∧
    (onceLockSet st v).1 = st ∧
    (onceLockSet st v).2 = false ∧
    pluginBuild (none : Option SF) (some v) = some (some v) := by
  subst h
  exact ⟨rfl, rfl, rfl, rfl⟩

/-- Witness for C9 with concrete soundfont values `5` (stored) and `7`
(attempted replacement). -/
theorem soundfont_set_once_witness :
    ((some 5 : Option Nat) = some 5) ∧
    (pluginBuild (some 5 : Option Nat) (some 7) = some (some 5) ∧
     (onceLockSet (some 5 : Option Nat) 7).1 = some 5 ∧
     (onceLockSet (some 5 : Option Nat) 7).2 = false ∧
     pluginBuild (none : Option Nat) (some 7) = some (some 7)) :=
  ⟨rfl, soundfont_set_once (some 5) 5 7 rfl⟩

/-!
## Claim C10: `decoder` needs the initialized soundfont
-/

/-- C10: `<MidiAudio as Decodable>::decoder` panics (`unwrap` on `None`,
modelled by the `none` result) whenever the global soundfont cell was never
initialized; whenever the cell holds a soundfont it always succeeds and
constructs the decoder passing exactly that shared handle (a clone of it)
to the spawned task. -/
theorem decoder_requires_initialized_soundfont :
    (∀ (SF : Type) (asset : MidiAudio),
      decodableDecoder (none : Option SF) asset = none) ∧
    (∀ (SF : Type) (sf : SF) (asset : MidiAudio),
      decodableDecoder (some sf) asset = some (MidiFileDecoder.new asset sf) ∧
      (MidiFileDecoder.new asset sf).taskSoundfont = sf ∧
      (MidiFileDecoder.new asset sf).taskSource = asset) :=
  ⟨fun _ _ => rfl, fun _ _ _ => ⟨rfl, rfl, rfl⟩⟩
